import Mathlib

/-!
Shallow embedding of the video-dashboard frontend
(`src/3cr-frontend/src/App.js` and the `VisualEditor` component).

State fields of the `App` component become fields of `AppState`; event
handlers become pure functions from state (plus the modelled backend
response) to state.  JavaScript strings are modelled as `List Char` so that
every string operation is structurally recursive and evaluable; a Lean
string literal `"s"` enters the model as `"s".data`.  Record fields the
code reads through optional chaining are `Option (List Char)`: a missing
property reads as `undefined`, which fails every filter test.  The backend
cursor is modelled as the backend's remaining record stream: a fetch with a
cursor returns the next `PAGE_LIMIT` records and a null cursor exactly when
the stream is exhausted.  Fallible HTTP calls appear as an `Except`
argument carrying the outcome the network produced.
-/

namespace Dashboard

/-- The `PAGE_LIMIT` constant from App.js line 9. -/
def PAGE_LIMIT : Nat := 1000

/-- JavaScript `s.trim()`: strip whitespace from both ends. -/
def jsTrim (s : List Char) : List Char :=
  ((s.dropWhile Char.isWhitespace).reverse.dropWhile Char.isWhitespace).reverse

/-- JavaScript `s.toLowerCase()` on the alphabetic content the model uses. -/
def jsToLower (s : List Char) : List Char := s.map Char.toLower

/-- JavaScript `a.includes(b)`: `b` occurs as a contiguous substring of `a`. -/
def jsIncludes (a b : List Char) : Bool := decide (b <:+: a)

/-- One video record as handled by the frontend.  The three text fields
searched and filtered by the UI are optional: `v.title?.toLowerCase()`
short-circuits to a falsy value when the property is missing. -/
structure Video where
  _id : List Char
  displayId : List Char
  title : Option (List Char)
  description : Option (List Char)
  transcriptText : Option (List Char)
  publishedAt : List Char
  viewCount : List Char
  sourceUrl : List Char
  deriving Repr, DecidableEq

/-- The three per-field filter boxes (`filters` state, App.js lines 17-21). -/
structure Filters where
  title : List Char
  description : List Char
  transcriptText : List Char
  deriving Repr, DecidableEq

/-- Server-computed per-field match counts (`filterCounts` state,
App.js lines 23-28). -/
structure FilterCounts where
  titleDocs : Nat
  descDocs : Nat
  transDocs : Nat
  totalDocs : Nat
  deriving Repr, DecidableEq

/-- JavaScript `x || 0` on a number: `0` is falsy, every other number is
truthy, so the expression is the identity on natural numbers. -/
def jsOrZero (n : Nat) : Nat := if n = 0 then 0 else n

/-- The filter predicate `v.field?.toLowerCase().includes(text)` applied to
an optional record field: a missing property never matches. -/
def optFieldMatches (field : Option (List Char)) (text : List Char) : Bool :=
  match field with
  | none => false
  | some s => jsIncludes (jsToLower s) text

/-- Dynamic property access `v[key]` restricted to the three text fields the
filter logic reads; any other key reads as `undefined`. -/
def fieldOf (v : Video) (key : List Char) : Option (List Char) :=
  if key = "title".data then v.title
  else if key = "description".data then v.description
  else if key = "transcriptText".data then v.transcriptText
  else none

/-- The `Object.entries(filters).forEach` branch of `getFilteredVideos`
(App.js lines 132-138): each non-blank filter box narrows the list by a
case-insensitive substring match on its field, in insertion order
title, description, transcriptText. -/
def applyBoxFilters (videos : List Video) (f : Filters) : List Video :=
  let step := fun (vs : List Video) (get : Video → Option (List Char))
      (val : List Char) =>
    if jsTrim val ≠ [] then
      vs.filter (fun v => optFieldMatches (get v) (jsToLower (jsTrim val)))
    else vs
  step (step (step videos (fun v => v.title) f.title)
      (fun v => v.description) f.description)
    (fun v => v.transcriptText) f.transcriptText

/-- Function `getFilteredVideos` (App.js lines 114-142): when the trimmed search text
is non-empty, filter by the selected search field only ("search" meaning
any of the three fields); otherwise apply the per-field filter boxes. -/
def getFilteredVideos (videos : List Video) (searchText searchField : List Char)
    (filters : Filters) : List Video :=
  let text := jsToLower (jsTrim searchText)
  if text ≠ [] then
    if searchField = "search".data then
      videos.filter (fun v =>
        optFieldMatches v.title text || optFieldMatches v.description text ||
          optFieldMatches v.transcriptText text)
    else
      videos.filter (fun v => optFieldMatches (fieldOf v searchField) text)
  else
    applyBoxFilters videos filters

/-- Function `getMatchedDocumentCount` (App.js lines 207-231): with an active search
the count for the selected field is shown (total for "search"/any-field and
for the unreachable default); otherwise the first non-blank filter box in
the order title, description, transcriptText decides; with nothing active
the server's estimated count is shown. -/
def getMatchedDocumentCount (searchText searchField : List Char)
    (filters : Filters) (filterCounts : FilterCounts)
    (estimatedCount : Nat) : Nat :=
  if jsTrim searchText ≠ [] then
    if searchField = "title".data then jsOrZero filterCounts.titleDocs
    else if searchField = "description".data then jsOrZero filterCounts.descDocs
    else if searchField = "transcriptText".data then
      jsOrZero filterCounts.transDocs
    else if searchField = "search".data then jsOrZero filterCounts.totalDocs
    else jsOrZero filterCounts.totalDocs
  else if jsTrim filters.title ≠ [] then jsOrZero filterCounts.titleDocs
  else if jsTrim filters.description ≠ [] then jsOrZero filterCounts.descDocs
  else if jsTrim filters.transcriptText ≠ [] then
    jsOrZero filterCounts.transDocs
  else estimatedCount

/-- Size measure of a cursor: `none` is the exhausted (null) cursor, `some
remaining` still has `remaining` records behind it. -/
def cursorMeasure : Option (List Video) → Nat
  | none => 0
  | some remaining => remaining.length + 1

/-- One backend fetch at a cursor: the next `PAGE_LIMIT` records, and the
null cursor exactly when the stream is thereby exhausted. -/
def fetchStep (remaining : List Video) : List Video × Option (List Video) :=
  (remaining.take PAGE_LIMIT,
    if remaining.drop PAGE_LIMIT = [] then none
    else some (remaining.drop PAGE_LIMIT))

/-- The `while (filteredVideos.length < requiredDataCount && cursor)` loop of
`handlePageChange` (App.js lines 164-180): append fetched batches to the
buffer, following the returned cursor, until the buffer covers the required
count or the cursor is null.  Returns the final buffer, the final cursor and
the number of fetches issued. -/
def fetchLoop (buffer : List Video) (required : Nat) :
    Option (List Video) → List Video × Option (List Video) × Nat
  | none => (buffer, none, 0)
  | some remaining =>
    if buffer.length < required then
      let r := fetchLoop (buffer ++ (fetchStep remaining).1) required
        (fetchStep remaining).2
      (r.1, r.2.1, r.2.2 + 1)
    else (buffer, some remaining, 0)
  termination_by cursor => cursorMeasure cursor
  decreasing_by
    have h1000 : PAGE_LIMIT = 1000 := rfl
    by_cases h : remaining.drop PAGE_LIMIT = []
    · simp [fetchStep, h, cursorMeasure]
    · have hlen : remaining.length - PAGE_LIMIT ≠ 0 := fun h0 =>
        h (List.eq_nil_of_length_eq_zero (by simpa [List.length_drop] using h0))
      simp only [fetchStep, h, if_neg, not_false_iff, cursorMeasure,
        List.length_drop]
      omega

/-- The same loop written as JavaScript executes it: one recursive call per
iteration, guarded by an explicit fuel, `none` when the fuel runs out before
the loop exits.  `handlePageChange_loop_slices` below shows a fuel bounded
by the cursor measure always suffices, i.e. the while loop terminates. -/
def fetchLoopFuel : Nat → List Video → Nat → Option (List Video) →
    Option (List Video × Option (List Video) × Nat)
  | 0, _, _, _ => none
  | _ + 1, buffer, _, none => some (buffer, none, 0)
  | fuel + 1, buffer, required, some remaining =>
    if buffer.length < required then
      (fetchLoopFuel fuel (buffer ++ (fetchStep remaining).1) required
        (fetchStep remaining).2).map (fun r => (r.1, r.2.1, r.2.2 + 1))
    else some (buffer, some remaining, 0)

/-- All component state touched by the claims (App.js lines 12-38). -/
structure AppState where
  videos : List Video
  loading : Bool
  nextCursor : Option (List Video)
  searchText : List Char
  searchField : List Char
  filters : Filters
  estimatedCount : Nat
  filterCounts : FilterCounts
  page : Nat
  totalPages : Nat
  deriving Repr, DecidableEq

/-- The locally re-filtered view `filteredVideos = getFilteredVideos()`
(App.js line 144). -/
def filteredView (s : AppState) : List Video :=
  getFilteredVideos s.videos s.searchText s.searchField s.filters

/-- Handler `handlePageChange` (App.js lines 154-190): a guard returns out-of-range
or unchanged target pages untouched; otherwise the page is set, the fetch
loop extends the current filtered view, and the buffer and final cursor are
stored (`setVideos(filteredVideos)`, `setNextCursor(cursor)`), with loading
cleared in the `finally` block.  The second component counts the network
fetches issued. -/
def handlePageChange (s : AppState) (targetPage : Nat) : AppState × Nat :=
  if targetPage < 1 ∨ targetPage > s.totalPages ∨ targetPage = s.page then
    (s, 0)
  else
    let required := targetPage * PAGE_LIMIT
    let r := fetchLoop (filteredView s) required s.nextCursor
    ({ s with
        videos := r.1
        nextCursor := r.2.1
        page := targetPage
        loading := false },
      r.2.2)

/-- The slice of the filtered view the table body renders for the current
page: `filteredVideos.slice((page - 1) * PAGE_LIMIT, page * PAGE_LIMIT)`
(App.js lines 451-453). -/
def displayedRows (s : AppState) : List Video :=
  ((filteredView s).drop ((s.page - 1) * PAGE_LIMIT)).take PAGE_LIMIT

/-- Handler `handleDelete` (App.js lines 192-201): nothing happens unless the
confirmation dialog is accepted and the DELETE call succeeds; on success
every record whose `_id` equals the target id is dropped from local state. -/
def handleDelete (confirmed : Bool) (httpResult : Except String Unit)
    (videos : List Video) (id : List Char) : List Video :=
  if !confirmed then videos
  else
    match httpResult with
    | .error _ => videos
    | .ok _ => videos.filter (fun v => v._id ≠ id)

/-- The Add/Edit modal's form data (the `FIELDS` key set, App.js
lines 573-581). -/
structure FormData where
  displayId : List Char
  title : List Char
  description : List Char
  publishedAt : List Char
  viewCount : List Char
  sourceUrl : List Char
  transcriptText : List Char
  deriving Repr, DecidableEq

/-- The object spread `{ ...item, ...formData }` used in the update branch
of `handleSubmit`: every form key overwrites the record, `_id` (absent from
the form) is kept. -/
def applyForm (item : Video) (f : FormData) : Video :=
  { _id := item._id
    displayId := f.displayId
    title := some f.title
    description := some f.description
    transcriptText := some f.transcriptText
    publishedAt := f.publishedAt
    viewCount := f.viewCount
    sourceUrl := f.sourceUrl }

/-- Handler `handleSubmit` (App.js lines 605-624): with an existing record the PUT
result is ignored and the form data is patched in place by `_id`; without
one the record returned by the POST is prepended.  Any HTTP failure reaches
the catch block: state is untouched and a blocking alert is shown (the
returned Bool). -/
def handleSubmit (existing : Option Video) (httpResult : Except String Video)
    (formData : FormData) (videos : List Video) : List Video × Bool :=
  match httpResult with
  | .error _ => (videos, true)
  | .ok resData =>
    match existing with
    | some video =>
      (videos.map (fun item =>
        if item._id = video._id then applyForm item formData else item), false)
    | none => (resData :: videos, false)

/-- Tag stripping `content.replace(/<[^>]*>/g, "")` as a left-to-right scan.
Outside a candidate match (`pending = none`) a `<` opens one; inside a
candidate (`pending = some buf`, `buf` holding the scanned text in reverse)
the first `>` completes the match and the buffered text is dropped.  If the
input ends inside a candidate there was no closing `>` anywhere after that
`<`, the regex never matched there, and the buffered text is kept
verbatim. -/
def stripTagsGo : Option (List Char) → List Char → List Char
  | none, [] => []
  | some buf, [] => buf.reverse
  | none, c :: rest =>
    if c = '<' then stripTagsGo (some [c]) rest
    else c :: stripTagsGo none rest
  | some buf, c :: rest =>
    if c = '>' then stripTagsGo none rest
    else stripTagsGo (some (c :: buf)) rest

/-- The replacement `content.replace(/<[^>]*>/g, "")` of VisualEditor.js
lines 34-35. -/
def stripTags (content : List Char) : List Char := stripTagsGo none content

/-- The split `split(/\s+/)` followed by `filter(Boolean)`: splitting at every single
whitespace character (which yields an empty piece for each extra whitespace
in a run and at the ends) and then dropping empty pieces gives exactly the
non-empty pieces of the split on whitespace runs.  `acc` holds the current
piece in reverse. -/
def splitWsGo (acc : List Char) : List Char → List (List Char)
  | [] => [acc.reverse]
  | c :: rest =>
    if c.isWhitespace then acc.reverse :: splitWsGo [] rest
    else splitWsGo (c :: acc) rest

/-- Count `wordCount` of the `VisualEditor` (VisualEditor.js line 34): strip tags,
split on whitespace, drop empty pieces with `filter(Boolean)`, count. -/
def wordCount (content : List Char) : Nat :=
  ((splitWsGo [] (stripTags content)).filter (fun w => w ≠ [])).length

/-- Count `charCount` of the `VisualEditor` (VisualEditor.js line 35): length of
the tag-stripped content. -/
def charCount (content : List Char) : Nat := (stripTags content).length

/-- Concrete fixture: the dashboard sits on page 2 of 2 with an empty local
list, no active search or filters, and one record still behind the
cursor. -/
def samplePagedState : AppState :=
  { videos := []
    loading := false
    nextCursor := some [⟨"v".data, [], none, none, none, [], [], []⟩]
    searchText := []
    searchField := "title".data
    filters := ⟨[], [], []⟩
    estimatedCount := 2000
    filterCounts := ⟨0, 0, 0, 0⟩
    page := 2
    totalPages := 2 }

/-! ## Claims -/

/-- Claim C7: for the editor content `<p>Hello world</p>` the Transcript
Editor's computed word count equals 2 and its computed character count
equals 11 (tags stripped by regex, split on whitespace, string length). -/
theorem editor_counts_on_fixture :
    wordCount "<p>Hello world</p>".data = 2 ∧
    charCount "<p>Hello world</p>".data = 11 := by
  decide

/-- Claim C2: every create or update submission whose HTTP call fails is
surfaced via a blocking alert (the `true` flag) and leaves the local videos
list unchanged: no prepend or patch-in-place happens on error. -/
theorem submit_failure_is_atomic (existing : Option Video) (err : String)
    (formData : FormData) (videos : List Video) :
    handleSubmit existing (.error err) formData videos = (videos, true) :=
  rfl

/-- Claim C6: after Reset (all three per-field filters and the search query
set to the empty string) `getFilteredVideos` returns the loaded list itself,
every record present and in the same order, whatever the selected search
field. -/
theorem reset_returns_unfiltered_view (videos : List Video)
    (searchField : List Char) :
    getFilteredVideos videos [] searchField ⟨[], [], []⟩ = videos :=
  rfl

/-- Claim C5: whenever the active search query is non-empty after trimming
and the selected search field is the any-field option (`"search"`),
`getMatchedDocumentCount` returns `filterCounts.totalDocs`. -/
theorem matchedCount_anyField_is_totalDocs (searchText : List Char)
    (filters : Filters) (filterCounts : FilterCounts) (estimatedCount : Nat)
    (h : jsTrim searchText ≠ []) :
    getMatchedDocumentCount searchText "search".data filters filterCounts
      estimatedCount = filterCounts.totalDocs := by
  unfold getMatchedDocumentCount
  rw [if_pos h, if_neg (by decide), if_neg (by decide), if_neg (by decide),
    if_pos (by decide)]
  unfold jsOrZero
  split <;> omega

/-- Witness for `matchedCount_anyField_is_totalDocs` at the query `"q"` and
counts `(1, 2, 3, 4)`. -/
theorem matchedCount_anyField_is_totalDocs_witness :
    getMatchedDocumentCount "q".data "search".data ⟨[], [], []⟩ ⟨1, 2, 3, 4⟩
      9 = 4 :=
  matchedCount_anyField_is_totalDocs "q".data ⟨[], [], []⟩ ⟨1, 2, 3, 4⟩ 9
    (by decide)

/-- Claim C9: whenever the active search query is non-empty after trimming,
`getFilteredVideos` ignores the three per-field filters entirely: two filter
settings with the same query and search field give equal filtered views. -/
theorem filteredView_ignores_boxes_during_search (videos : List Video)
    (searchText searchField : List Char) (f₁ f₂ : Filters)
    (h : jsTrim searchText ≠ []) :
    getFilteredVideos videos searchText searchField f₁ =
      getFilteredVideos videos searchText searchField f₂ := by
  have htext : jsToLower (jsTrim searchText) ≠ [] := by
    intro h0
    exact h (List.map_eq_nil_iff.mp h0)
  simp only [getFilteredVideos]
  rw [if_pos htext, if_pos htext]

/-- Witness for `filteredView_ignores_boxes_during_search`: with the query
`"q"` active, a title filter box that would exclude the record is
ignored. -/
theorem filteredView_ignores_boxes_during_search_witness :
    getFilteredVideos
        [⟨"i".data, "1".data, some "q".data, none, none, [], [], []⟩]
        "q".data "title".data ⟨"zzz".data, [], []⟩ =
      getFilteredVideos
        [⟨"i".data, "1".data, some "q".data, none, none, [], [], []⟩]
        "q".data "title".data ⟨[], [], []⟩ :=
  filteredView_ignores_boxes_during_search _ "q".data "title".data
    ⟨"zzz".data, [], []⟩ ⟨[], [], []⟩ (by decide)

/-- Claim C10: when the search query is empty, `getMatchedDocumentCount`
follows a fixed precedence over the filter boxes: `titleDocs` if the title
filter is non-blank, else `descDocs` if the description filter is non-blank,
else `transDocs` if the transcript filter is non-blank — counts of
lower-precedence active filters are ignored. -/
theorem matchedCount_box_precedence (searchText searchField : List Char)
    (f : Filters) (c : FilterCounts) (est : Nat)
    (h : jsTrim searchText = []) :
    (jsTrim f.title ≠ [] →
      getMatchedDocumentCount searchText searchField f c est = c.titleDocs) ∧
    (jsTrim f.title = [] → jsTrim f.description ≠ [] →
      getMatchedDocumentCount searchText searchField f c est = c.descDocs) ∧
    (jsTrim f.title = [] → jsTrim f.description = [] →
      jsTrim f.transcriptText ≠ [] →
      getMatchedDocumentCount searchText searchField f c est = c.transDocs) := by
  refine ⟨fun h1 => ?_, fun h1 h2 => ?_, fun h1 h2 h3 => ?_⟩ <;>
    · unfold getMatchedDocumentCount jsOrZero
      simp only [h, ne_eq, not_true_eq_false, if_false, h1]
      first
      | (simp only [not_false_eq_true, if_true]; split <;> omega)
      | (simp only [not_true_eq_false, if_false, h2]
         first
         | (simp only [not_false_eq_true, if_true]; split <;> omega)
         | (simp only [not_true_eq_false, if_false, h3,
              not_false_eq_true, if_true]
            split <;> omega))

/-- Witness for `matchedCount_box_precedence`: with all three boxes
non-blank the title count wins. -/
theorem matchedCount_box_precedence_witness :
    getMatchedDocumentCount [] "title".data ⟨"a".data, "b".data, "c".data⟩
      ⟨5, 6, 7, 8⟩ 9 = 5 :=
  (matchedCount_box_precedence [] "title".data ⟨"a".data, "b".data, "c".data⟩
    ⟨5, 6, 7, 8⟩ 9 (by decide)).1 (by decide)

/-- Claim C3 counterexample: a successful create while a search query is
active that the new record does not match.  The POST result is prepended to
the `videos` state, but the list the table renders is the filtered view, and
the new record is not its first entry — it does not appear at all. -/
theorem create_not_first_rendered_counterexample :
    ¬ ((getFilteredVideos
          (handleSubmit none
            (.ok ⟨"n".data, "9".data, some "abc".data, none, none, [], [], []⟩)
            ⟨[], [], [], [], [], [], []⟩ []).1
          "x".data "title".data ⟨[], [], []⟩).head? =
        some ⟨"n".data, "9".data, some "abc".data, none, none, [], [], []⟩) := by
  decide

/-- Claim C3 (amended): every successful create submission prepends the
record returned by the POST to the local videos list; it appears as the
first entry of the list the table renders whenever no search query or
per-field filter is active (a record failing an active search or filter is
not displayed). -/
theorem create_prepends_to_videos (videos : List Video) (r : Video)
    (formData : FormData) (searchField : List Char) :
    handleSubmit none (.ok r) formData videos = (r :: videos, false) ∧
    (getFilteredVideos (handleSubmit none (.ok r) formData videos).1
        [] searchField ⟨[], [], []⟩).head? = some r :=
  ⟨rfl, rfl⟩

/-- Claim C8: `handlePageChange` is a complete no-op when the target page is
below 1, above `totalPages`, or equal to the current page: the state is
returned unchanged (page, videos, nextCursor, loading all kept) and zero
network fetches are issued. -/
theorem pageChange_guard_is_noop (s : AppState) (targetPage : Nat)
    (h : targetPage < 1 ∨ targetPage > s.totalPages ∨ targetPage = s.page) :
    handlePageChange s targetPage = (s, 0) := by
  unfold handlePageChange
  rw [if_pos h]

/-- Witness for `pageChange_guard_is_noop`: requesting the current page
again changes nothing and fetches nothing. -/
theorem pageChange_guard_is_noop_witness :
    handlePageChange
        ⟨[], false, none, [], [], ⟨[], [], []⟩, 0, ⟨0, 0, 0, 0⟩, 1, 5⟩ 1 =
      (⟨[], false, none, [], [], ⟨[], [], []⟩, 0, ⟨0, 0, 0, 0⟩, 1, 5⟩, 0) :=
  pageChange_guard_is_noop
    ⟨[], false, none, [], [], ⟨[], [], []⟩, 0, ⟨0, 0, 0, 0⟩, 1, 5⟩ 1
    (by decide)

/-- Removing the unique occurrence of an identifier from a list with
pairwise-distinct identifiers shortens it by exactly one. -/
theorem filter_out_unique_id_length (videos : List Video) (id : List Char)
    (hmem : id ∈ videos.map (fun v => v._id))
    (hnodup : (videos.map (fun v => v._id)).Nodup) :
    (videos.filter (fun v => v._id ≠ id)).length + 1 = videos.length := by
  induction videos with
  | nil => simp at hmem
  | cons v vs ih =>
    simp only [List.map_cons, List.nodup_cons, List.mem_map] at hnodup
    by_cases hv : v._id = id
    · rw [List.filter_cons_of_neg (by simp [hv])]
      have hall : vs.filter (fun w => decide (w._id ≠ id)) = vs := by
        refine List.filter_eq_self.mpr (fun w hw => ?_)
        simp only [decide_eq_true_iff]
        intro hwid
        exact hnodup.1 ⟨w, hw, by rw [hwid, hv]⟩
      rw [hall, List.length_cons]
    · have hmem' : id ∈ vs.map (fun w => w._id) := by
        simp only [List.map_cons, List.mem_cons] at hmem
        rcases hmem with h | h
        · exact absurd h.symm hv
        · exact h
      rw [List.filter_cons_of_pos (by simp [hv]), List.length_cons,
        List.length_cons]
      have := ih hmem' hnodup.2
      omega

/-- Claim C4: a confirmed and successful delete of an identifier occurring
in the local list removes exactly one matching record (the length drops by
one and no match remains) and keeps every record with a different
identifier, given the backend-enforced uniqueness of identifiers. -/
theorem delete_removes_exactly_one (videos : List Video) (id : List Char)
    (hmem : id ∈ videos.map (fun v => v._id))
    (hnodup : (videos.map (fun v => v._id)).Nodup) :
    (handleDelete true (.ok ()) videos id).length + 1 = videos.length ∧
    (∀ v ∈ handleDelete true (.ok ()) videos id, v._id ≠ id) ∧
    (∀ v ∈ videos, v._id ≠ id → v ∈ handleDelete true (.ok ()) videos id) := by
  have hdef : handleDelete true (.ok ()) videos id =
      videos.filter (fun v => v._id ≠ id) := rfl
  rw [hdef]
  refine ⟨filter_out_unique_id_length videos id hmem hnodup, ?_, ?_⟩
  · intro v hv
    have := List.of_mem_filter hv
    simpa using this
  · intro v hv hne
    exact List.mem_filter.mpr ⟨hv, by simpa using hne⟩

/-- Witness for `delete_removes_exactly_one` on a two-record list. -/
theorem delete_removes_exactly_one_witness :
    (handleDelete true (.ok ())
        [⟨"a".data, [], none, none, none, [], [], []⟩,
          ⟨"b".data, [], none, none, none, [], [], []⟩] "a".data).length + 1 =
      2 ∧
    (∀ v ∈ handleDelete true (.ok ())
        [⟨"a".data, [], none, none, none, [], [], []⟩,
          ⟨"b".data, [], none, none, none, [], [], []⟩] "a".data,
      v._id ≠ "a".data) ∧
    (∀ v ∈ [⟨"a".data, [], none, none, none, [], [], []⟩,
          (⟨"b".data, [], none, none, none, [], [], []⟩ : Video)],
      v._id ≠ "a".data →
        v ∈ handleDelete true (.ok ())
          [⟨"a".data, [], none, none, none, [], [], []⟩,
            ⟨"b".data, [], none, none, none, [], [], []⟩] "a".data) :=
  delete_removes_exactly_one
    [⟨"a".data, [], none, none, none, [], [], []⟩,
      ⟨"b".data, [], none, none, none, [], [], []⟩] "a".data
    (by decide) (by decide)

/-- After one fetch the cursor measure strictly shrinks: the batch removes a
full page (or everything) from the remaining stream. -/
theorem fetchStep_cursor_lt (remaining : List Video) :
    cursorMeasure (fetchStep remaining).2 < cursorMeasure (some remaining) := by
  have h1000 : PAGE_LIMIT = 1000 := rfl
  by_cases h : remaining.drop PAGE_LIMIT = []
  · simp [fetchStep, h, cursorMeasure]
  · have hlen : remaining.length - PAGE_LIMIT ≠ 0 := fun h0 =>
      h (List.eq_nil_of_length_eq_zero (by simpa [List.length_drop] using h0))
    simp only [fetchStep, h, if_neg, not_false_iff, cursorMeasure,
      List.length_drop]
    omega

/-- Any fuel beyond the cursor measure lets the step-counted while loop run
to completion and agree with `fetchLoop`: the fetch loop terminates. -/
theorem fetchLoopFuel_adequate (fuel : Nat) :
    ∀ (cursor : Option (List Video)) (buffer : List Video) (required : Nat),
      cursorMeasure cursor < fuel →
      fetchLoopFuel fuel buffer required cursor =
        some (fetchLoop buffer required cursor) := by
  induction fuel with
  | zero => intro cursor buffer required h; omega
  | succ n ih =>
    intro cursor buffer required h
    match cursor with
    | none => simp [fetchLoopFuel, fetchLoop]
    | some remaining =>
      by_cases hb : buffer.length < required
      · have hlt : cursorMeasure (fetchStep remaining).2 < n := by
          have h1 := fetchStep_cursor_lt remaining
          omega
        simp only [fetchLoopFuel, hb, if_true, if_pos hb,
          ih (fetchStep remaining).2 _ _ hlt]
        rw [fetchLoop]
        simp [hb]
      · simp only [fetchLoopFuel, hb, if_false, if_neg hb]
        rw [fetchLoop]
        simp [hb]

/-- Whenever the while loop exits, it exits for one of its two reasons: the
buffer covers the required count, or the cursor is null. -/
theorem fetchLoopFuel_stop (fuel : Nat) :
    ∀ (buffer : List Video) (required : Nat) (cursor : Option (List Video))
      (r : List Video × Option (List Video) × Nat),
      fetchLoopFuel fuel buffer required cursor = some r →
      required ≤ r.1.length ∨ r.2.1 = none := by
  induction fuel with
  | zero => intro buffer required cursor r h; simp [fetchLoopFuel] at h
  | succ n ih =>
    intro buffer required cursor r h
    match cursor with
    | none =>
      simp only [fetchLoopFuel, Option.some.injEq] at h
      subst h
      exact Or.inr rfl
    | some remaining =>
      by_cases hb : buffer.length < required
      · simp only [fetchLoopFuel, if_pos hb, Option.map_eq_some'] at h
        obtain ⟨r', hr', hmap⟩ := h
        have := ih _ _ _ _ hr'
        subst hmap
        simpa using this
      · simp only [fetchLoopFuel, if_neg hb, Option.some.injEq] at h
        subst h
        exact Or.inl (Nat.le_of_not_lt hb)

/-- Claim C1: for a page change to an in-range target page whose data
extends beyond the locally held record count, the fetch loop of
`handlePageChange` terminates (a fuel bounded by the cursor measure
suffices for the step-counted loop), stops only once enough records are
buffered to cover the requested page or the cursor is exhausted, stores the
buffer and final cursor, and the requested page is then sliced out of the
(re-filtered) buffer. -/
theorem pageChange_loop_slices (s : AppState) (targetPage : Nat)
    (h1 : 1 ≤ targetPage) (h2 : targetPage ≤ s.totalPages)
    (h3 : targetPage ≠ s.page)
    (h4 : (filteredView s).length < targetPage * PAGE_LIMIT) :
    ∃ buffer cursor fetches,
      fetchLoopFuel (cursorMeasure s.nextCursor + 1) (filteredView s)
          (targetPage * PAGE_LIMIT) s.nextCursor =
        some (buffer, cursor, fetches) ∧
      (targetPage * PAGE_LIMIT ≤ buffer.length ∨ cursor = none) ∧
      handlePageChange s targetPage =
        ({ s with
            videos := buffer
            nextCursor := cursor
            page := targetPage
            loading := false }, fetches) ∧
      displayedRows (handlePageChange s targetPage).1 =
        ((getFilteredVideos buffer s.searchText s.searchField s.filters).drop
            ((targetPage - 1) * PAGE_LIMIT)).take PAGE_LIMIT := by
  have hfuel := fetchLoopFuel_adequate (cursorMeasure s.nextCursor + 1)
    s.nextCursor (filteredView s) (targetPage * PAGE_LIMIT) (by omega)
  set r := fetchLoop (filteredView s) (targetPage * PAGE_LIMIT) s.nextCursor
    with hr
  refine ⟨r.1, r.2.1, r.2.2, ?_, ?_, ?_, ?_⟩
  · simpa using hfuel
  · exact fetchLoopFuel_stop _ _ _ _ _ (by simpa using hfuel)
  · unfold handlePageChange
    rw [if_neg (by omega)]
  · unfold handlePageChange
    rw [if_neg (by omega)]
    rfl

/-- Witness for `pageChange_loop_slices`: moving back to page 1 of
`samplePagedState`, whose local list is empty, drains the one-record cursor
and stops with a null cursor after one fetch. -/
theorem pageChange_loop_slices_witness :
    ∃ buffer cursor fetches,
      fetchLoopFuel (cursorMeasure samplePagedState.nextCursor + 1)
          (filteredView samplePagedState) (1 * PAGE_LIMIT)
          samplePagedState.nextCursor = some (buffer, cursor, fetches) ∧
      (1 * PAGE_LIMIT ≤ buffer.length ∨ cursor = none) ∧
      handlePageChange samplePagedState 1 =
        ({ samplePagedState with
            videos := buffer
            nextCursor := cursor
            page := 1
            loading := false }, fetches) ∧
      displayedRows (handlePageChange samplePagedState 1).1 =
        ((getFilteredVideos buffer samplePagedState.searchText
              samplePagedState.searchField samplePagedState.filters).drop
            ((1 - 1) * PAGE_LIMIT)).take PAGE_LIMIT :=
  pageChange_loop_slices samplePagedState 1 (by decide) (by decide)
    (by decide) (by decide)

end Dashboard
